import Mathlib

/-!
Verification development for the rosplane2 flight-control core
(`controller_example.cpp`) and its parameter manager (`param_manager.cpp`).

The C++ `float`/`double` arithmetic is embedded over `ℚ` (exact rational
arithmetic), so every definition is executable and every algebraic identity
is exact.  Divisions follow Lean's convention `x / 0 = 0`; every division in
the claims below is guarded (anti-windup requires `|ki| ≥ 1e-5`), so this
convention is never load-bearing.  Controller member state is an explicit
record threaded through each call; each loop returns `(output, new state)`.
-/

namespace Rosplane2

/-- The persistent member state of `controller_example`: previous errors,
integrators and filtered-derivative accumulators of the course (c), roll (r),
pitch (p), airspeed-via-throttle (at) and altitude (a) loops. -/
structure CtrlState where
  c_error_ : ℚ
  c_integrator_ : ℚ
  r_error_ : ℚ
  r_integrator : ℚ
  p_error_ : ℚ
  p_integrator_ : ℚ
  at_error_ : ℚ
  at_integrator_ : ℚ
  at_differentiator_ : ℚ
  a_error_ : ℚ
  a_integrator_ : ℚ
  a_differentiator_ : ℚ

/-- The `params_s` struct: gains, trims, limits and the altitude hold zone. -/
structure Params where
  c_kp : ℚ
  c_ki : ℚ
  c_kd : ℚ
  r_kp : ℚ
  r_ki : ℚ
  r_kd : ℚ
  p_kp : ℚ
  p_ki : ℚ
  p_kd : ℚ
  a_t_kp : ℚ
  a_t_ki : ℚ
  a_t_kd : ℚ
  a_kp : ℚ
  a_ki : ℚ
  a_kd : ℚ
  tau : ℚ
  trim_e : ℚ
  trim_t : ℚ
  pwm_rad_e : ℚ
  max_a : ℚ
  max_e : ℚ
  max_t : ℚ
  max_takeoff_throttle : ℚ
  alt_hz : ℚ

/-- The `input_s` struct consumed by the phase handlers. -/
structure Input where
  Ts : ℚ
  va : ℚ
  Va_c : ℚ
  h : ℚ
  h_c : ℚ
  chi_c : ℚ
  chi : ℚ
  phi_ff : ℚ
  phi : ℚ
  theta : ℚ
  p : ℚ
  q : ℚ
  r : ℚ

/-- The `output_s` struct produced by the phase handlers. -/
structure Output where
  delta_e : ℚ
  delta_a : ℚ
  delta_r : ℚ
  delta_t : ℚ
  phi_c : ℚ
  theta_c : ℚ

/-- `controller_example::sat`: clamp `value` into `[low_limit, up_limit]`. -/
def sat (value up_limit low_limit : ℚ) : ℚ :=
  if value > up_limit then up_limit
  else if value < low_limit then low_limit
  else value

/-- C `copysign(mag, s)`: the magnitude of `mag` carrying the sign of `s`
(`s = 0` counts as positive, as for IEEE `+0.0`). -/
def copysignQ (mag s : ℚ) : ℚ :=
  if s < 0 then -|mag| else |mag|

/-- Mathematical sign, used only to state spec-side properties. -/
def sgn (x : ℚ) : ℚ :=
  if x < 0 then -1 else if 0 < x then 1 else 0

/-- `controller_example::course_hold`: PI-D on course error with measured yaw
rate `r` and a roll feed-forward, saturated at ±15·3.14/180, with
back-calculation anti-windup when `|c_ki| ≥ 1e-5`.  Writes `c_error_` and
`c_integrator_`. -/
def course_hold (chi_c chi phi_ff r : ℚ) (params : Params) (Ts : ℚ)
    (s : CtrlState) : ℚ × CtrlState :=
  let error := chi_c - chi
  let c_int1 := s.c_integrator_ + (Ts / 2) * (error + s.c_error_)
  let up := params.c_kp * error
  let ui := params.c_ki * c_int1
  let ud := params.c_kd * r
  let phi_c := sat (up + ui + ud + phi_ff) (15 * (314/100) / 180) (-(15 * (314/100) / 180))
  let c_int2 :=
    if |params.c_ki| ≥ 1/100000 then
      c_int1 + (Ts / params.c_ki) * (phi_c - (up + ui + ud + phi_ff))
    else c_int1
  (phi_c, { s with c_error_ := error, c_integrator_ := c_int2 })

/-- `controller_example::roll_hold`: PI-D on roll error with measured roll
rate `p` (derivative term subtracted), saturated at ±max_a, with anti-windup
when `|r_ki| ≥ 1e-5`.  Writes `r_error_` and `r_integrator`. -/
def roll_hold (phi_c phi p : ℚ) (params : Params) (Ts : ℚ)
    (s : CtrlState) : ℚ × CtrlState :=
  let error := phi_c - phi
  let r_int1 := s.r_integrator + (Ts / 2) * (error + s.r_error_)
  let up := params.r_kp * error
  let ui := params.r_ki * r_int1
  let ud := params.r_kd * p
  let delta_a := sat (up + ui - ud) params.max_a (-params.max_a)
  let r_int2 :=
    if |params.r_ki| ≥ 1/100000 then
      r_int1 + (Ts / params.r_ki) * (delta_a - (up + ui - ud))
    else r_int1
  (delta_a, { s with r_error_ := error, r_integrator := r_int2 })

/-- `controller_example::pitch_hold`: PI-D on pitch error with measured pitch
rate `q` (derivative subtracted) and a pre-scaled elevator trim bias,
saturated at ±max_e, anti-windup when `|p_ki| ≥ 1e-5`; the saturated value is
returned negated (elevator sign convention).  Writes `p_error_` and
`p_integrator_`. -/
def pitch_hold (theta_c theta q : ℚ) (params : Params) (Ts : ℚ)
    (s : CtrlState) : ℚ × CtrlState :=
  let error := theta_c - theta
  let p_int1 := s.p_integrator_ + (Ts / 2) * (error + s.p_error_)
  let up := params.p_kp * error
  let ui := params.p_ki * p_int1
  let ud := params.p_kd * q
  let delta_e := sat (params.trim_e / params.pwm_rad_e + up + ui - ud)
      params.max_e (-params.max_e)
  let p_int2 :=
    if |params.p_ki| ≥ 1/100000 then
      p_int1 + (Ts / params.p_ki) *
        (delta_e - (params.trim_e / params.pwm_rad_e + up + ui - ud))
    else p_int1
  (-delta_e, { s with p_error_ := error, p_integrator_ := p_int2 })

/-- `controller_example::airspeed_with_throttle_hold`: PID on airspeed error
with a dirty-derivative (low-pass filtered) error derivative and throttle trim
bias, saturated into `[0, max_t]`, anti-windup when `|a_t_ki| ≥ 1e-5`.
Writes `at_error_`, `at_integrator_` and `at_differentiator_`. -/
def airspeed_with_throttle_hold (Va_c Va : ℚ) (params : Params) (Ts : ℚ)
    (s : CtrlState) : ℚ × CtrlState :=
  let error := Va_c - Va
  let at_int1 := s.at_integrator_ + (Ts / 2) * (error + s.at_error_)
  let at_diff1 := (2 * params.tau - Ts) / (2 * params.tau + Ts) * s.at_differentiator_ +
      (2 / (2 * params.tau + Ts)) * (error - s.at_error_)
  let up := params.a_t_kp * error
  let ui := params.a_t_ki * at_int1
  let ud := params.a_t_kd * at_diff1
  let delta_t := sat (params.trim_t + up + ui + ud) params.max_t 0
  let at_int2 :=
    if |params.a_t_ki| ≥ 1/100000 then
      at_int1 + (Ts / params.a_t_ki) * (delta_t - (params.trim_t + up + ui + ud))
    else at_int1
  (delta_t, { s with at_error_ := error, at_integrator_ := at_int2,
                     at_differentiator_ := at_diff1 })

/-- `controller_example::altitude_hold_control`: PID on altitude error with a
dirty derivative, saturated at ±10·3.14/180, anti-windup when
`|a_ki| ≥ 1e-5`.  The integrator advances trapezoidally only when the error is
strictly inside `(-alt_hz + 0.01, alt_hz - 0.01)` and is reset to `0`
otherwise.  The computed error is stored into the airspeed loop's `at_error_`
field (as in the source; `a_error_` is never written). -/
def altitude_hold_control (h_c h : ℚ) (params : Params) (Ts : ℚ)
    (s : CtrlState) : ℚ × CtrlState :=
  let error := h_c - h
  let a_int1 :=
    if -params.alt_hz + 1/100 < error ∧ error < params.alt_hz - 1/100 then
      s.a_integrator_ + (Ts / 2) * (error + s.a_error_)
    else 0
  let a_diff1 := (2 * params.tau - Ts) / (2 * params.tau + Ts) * s.a_differentiator_ +
      (2 / (2 * params.tau + Ts)) * (error - s.a_error_)
  let up := params.a_kp * error
  let ui := params.a_ki * a_int1
  let ud := params.a_kd * a_diff1
  let theta_c := sat (up + ui + ud) (10 * (314/100) / 180) (-(10 * (314/100) / 180))
  let a_int2 :=
    if |params.a_ki| ≥ 1/100000 then
      a_int1 + (Ts / params.a_ki) * (theta_c - (up + ui + ud))
    else a_int1
  (theta_c, { s with a_integrator_ := a_int2, a_differentiator_ := a_diff1,
                     at_error_ := error })

/-- `controller_example::controller_example()`: the constructor body assigns
zero to the course, roll and pitch loop errors and integrators.  It is
modelled as acting on the indeterminate pre-construction values `s` of the
member fields; fields the body does not assign keep those values. -/
def controller_example_ctor (s : CtrlState) : CtrlState :=
  { s with c_error_ := 0, c_integrator_ := 0,
           r_error_ := 0, r_integrator := 0,
           p_error_ := 0, p_integrator_ := 0 }

/-- `controller_example::take_off`: rudder and commanded roll forced to 0,
aileron from the roll loop, throttle from the airspeed loop re-clamped into
`[0, max_takeoff_throttle]`, commanded pitch fixed at `3.0·3.14/180`, elevator
from the pitch loop.  Loop calls occur in source order (roll, airspeed,
pitch). -/
def take_off (params : Params) (input : Input) (s : CtrlState) :
    Output × CtrlState :=
  let ra := roll_hold 0 input.phi input.p params input.Ts s
  let asp := airspeed_with_throttle_hold input.Va_c input.va params input.Ts ra.2
  let theta_c : ℚ := 3 * (314/100) / 180
  let pe := pitch_hold theta_c input.theta input.q params input.Ts asp.2
  ({ delta_r := 0, phi_c := 0, delta_a := ra.1,
     delta_t := sat asp.1 params.max_takeoff_throttle 0,
     theta_c := theta_c, delta_e := pe.1 }, pe.2)

/-- `controller_example::take_off_exit`: empty body. -/
def take_off_exit (s : CtrlState) : CtrlState := s

/-- `controller_example::climb`: shapes the altitude command with threshold
`alt_hz / 2` (`adjusted_hc = h + copysign(alt_hz/2, h_c - h)` when
`|h_c - h| > alt_hz/2`, else `h_c`), then runs the airspeed, altitude, pitch
and roll loops in source order; commanded roll and rudder are 0. -/
def climb (params : Params) (input : Input) (s : CtrlState) :
    Output × CtrlState :=
  let max_alt := params.alt_hz / 2
  let adjusted_hc :=
    if |input.h_c - input.h| > max_alt then
      input.h + copysignQ max_alt (input.h_c - input.h)
    else input.h_c
  let asp := airspeed_with_throttle_hold input.Va_c input.va params input.Ts s
  let ah := altitude_hold_control adjusted_hc input.h params input.Ts asp.2
  let pe := pitch_hold ah.1 input.theta input.q params input.Ts ah.2
  let ra := roll_hold 0 input.phi input.p params input.Ts pe.2
  ({ delta_t := asp.1, theta_c := ah.1, delta_e := pe.1,
     phi_c := 0, delta_a := ra.1, delta_r := 0 }, ra.2)

/-- `controller_example::climb_exit`: zeroes the airspeed and altitude loop
errors, integrators and differentiators. -/
def climb_exit (s : CtrlState) : CtrlState :=
  { s with at_error_ := 0, at_integrator_ := 0, at_differentiator_ := 0,
           a_error_ := 0, a_integrator_ := 0, a_differentiator_ := 0 }

/-- `controller_example::altitude_hold`: shapes the altitude command with the
full threshold `alt_hz`, then runs the airspeed, altitude, course, roll and
pitch loops in source order; rudder is 0 (coordinated turn stubbed). -/
def altitude_hold (params : Params) (input : Input) (s : CtrlState) :
    Output × CtrlState :=
  let max_alt := params.alt_hz
  let adjusted_hc :=
    if |input.h_c - input.h| > max_alt then
      input.h + copysignQ max_alt (input.h_c - input.h)
    else input.h_c
  let asp := airspeed_with_throttle_hold input.Va_c input.va params input.Ts s
  let ah := altitude_hold_control adjusted_hc input.h params input.Ts asp.2
  let co := course_hold input.chi_c input.chi input.phi_ff input.r params input.Ts ah.2
  let ra := roll_hold co.1 input.phi input.p params input.Ts co.2
  let pe := pitch_hold ah.1 input.theta input.q params input.Ts ra.2
  ({ delta_t := asp.1, theta_c := ah.1, delta_r := 0,
     phi_c := co.1, delta_a := ra.1, delta_e := pe.1 }, pe.2)

/-- `controller_example::altitude_hold_exit`: zeroes only the course loop
integrator. -/
def altitude_hold_exit (s : CtrlState) : CtrlState :=
  { s with c_integrator_ := 0 }

/-!
Model of `param_manager` (`param_manager.cpp`).  The stored map
`params_ : std::map<std::string, std::variant<double, bool, int64_t,
std::string>>` is embedded as an association list over the variant type
`PVal`; `rclcpp::Parameter` values of the four storable types are embedded as
their `PVal`; the callback's final `else` branch (an rclcpp parameter whose
type is none of the four, e.g. an array — it is logged and skipped) concerns
values outside this variant and is not represented.
-/

/-- The variant value type stored in `param_manager::params_`. -/
inductive PVal where
  | pdouble : ℚ → PVal
  | pbool : Bool → PVal
  | pint : ℤ → PVal
  | pstring : String → PVal
deriving DecidableEq

/-- `std::map::find` on the association-list model of `params_`. -/
def mapFind : List (String × PVal) → String → Option PVal
  | [], _ => none
  | (k0, v0) :: rest, k => if k0 = k then some v0 else mapFind rest k

/-- `params_[k] = v`: assign through `operator[]` (update the entry when the
key is present, insert it otherwise). -/
def mapSet : List (String × PVal) → String → PVal → List (String × PVal)
  | [], k, v => [(k, v)]
  | (k0, v0) :: rest, k, v =>
      if k0 = k then (k0, v) :: rest else (k0, v0) :: mapSet rest k v

/-- `param_manager::set_parameters_callback`: walk the incoming vector; on the
first name not present in `params_` return `false` immediately (earlier
entries stay updated); otherwise assign each value and return `true` at the
end.  Returns the flag together with the final map. -/
def set_parameters_callback (params_ : List (String × PVal)) :
    List (String × PVal) → Bool × List (String × PVal)
  | [] => (true, params_)
  | (name, v) :: rest =>
      if (mapFind params_ name).isNone then (false, params_)
      else set_parameters_callback (mapSet params_ name v) rest

/-- All-zero controller state, for concrete instantiations. -/
def S0 : CtrlState := ⟨0, 0, 0, 0, 0, 0, 0, 0, 0, 0, 0, 0⟩

/-- All-zero parameter record, for concrete instantiations. -/
def P0 : Params := ⟨0, 0, 0, 0, 0, 0, 0, 0, 0, 0, 0, 0, 0, 0, 0, 0, 0, 0, 0, 0, 0, 0, 0, 0⟩

/-- All-zero input record, for concrete instantiations. -/
def I0 : Input := ⟨0, 0, 0, 0, 0, 0, 0, 0, 0, 0, 0, 0, 0⟩

/-- An all-ones controller state, standing for the indeterminate values the
member fields hold before the constructor body runs. -/
def sIndet : CtrlState := ⟨1, 1, 1, 1, 1, 1, 1, 1, 1, 1, 1, 1⟩

theorem sat_mem (v u l : ℚ) (h : l ≤ u) : l ≤ sat v u l ∧ sat v u l ≤ u := by
  unfold sat
  split_ifs with h1 h2 <;> constructor <;> linarith

theorem ki_ne_zero {ki : ℚ} (h : |ki| ≥ 1 / 100000) : ki ≠ 0 :=
  abs_pos.mp (lt_of_lt_of_le (by norm_num) h)

theorem copysignQ_eq_sgn_mul (m t : ℚ) (hm : 0 ≤ m) (ht : t ≠ 0) :
    copysignQ m t = sgn t * m := by
  unfold copysignQ sgn
  rcases lt_trichotomy t 0 with h | h | h
  · rw [if_pos h, if_pos h, abs_of_nonneg hm]; ring
  · exact absurd h ht
  · rw [if_neg (not_lt.mpr h.le), if_neg (not_lt.mpr h.le), if_pos h,
      abs_of_nonneg hm]; ring

/-- Claim C9: `sat` is a pure total clamp: assuming `lower ≤ upper` the result
lies in `[lower, upper]`; an in-range value is returned unchanged; a value
equal to a boundary returns that boundary; values above `upper` return
`upper`, values below `lower` return `lower`; and the spec's concrete
examples `sat(20,15,-15) = 15`, `sat(-20,15,-15) = -15`, `sat(5,15,-15) = 5`
hold. -/
theorem sat_clamps (v up lo : ℚ) (h : lo ≤ up) :
    (lo ≤ sat v up lo ∧ sat v up lo ≤ up)
    ∧ (lo ≤ v ∧ v ≤ up → sat v up lo = v)
    ∧ sat up up lo = up
    ∧ sat lo up lo = lo
    ∧ (up < v → sat v up lo = up)
    ∧ (v < lo → sat v up lo = lo)
    ∧ sat 20 15 (-15) = 15 ∧ sat (-20) 15 (-15) = -15 ∧ sat 5 15 (-15) = 5 := by
  refine ⟨sat_mem v up lo h, ?_, ?_, ?_, ?_, ?_, ?_, ?_, ?_⟩
  · intro hin
    unfold sat
    rw [if_neg (not_lt.mpr hin.2), if_neg (not_lt.mpr hin.1)]
  · unfold sat
    rw [if_neg (lt_irrefl up), if_neg (not_lt.mpr h)]
  · unfold sat
    rw [if_neg (not_lt.mpr h), if_neg (lt_irrefl lo)]
  · intro hv
    unfold sat
    rw [if_pos hv]
  · intro hv
    unfold sat
    rw [if_neg (by linarith : ¬ up < v), if_pos hv]
  · norm_num [sat]
  · norm_num [sat]
  · norm_num [sat]

/-- Witness for C9 at `v = 20, up = 15, lo = -15`. -/
theorem sat_clamps_witness :
    ((-15 : ℚ) ≤ sat 20 15 (-15) ∧ sat 20 15 (-15) ≤ 15)
    ∧ sat 20 15 (-15) = 15 :=
  ⟨(sat_clamps 20 15 (-15) (by norm_num)).1,
   (sat_clamps 20 15 (-15) (by norm_num)).2.2.2.2.2.2.1⟩

/-- Claim C3: assuming the configured limits are non-negative, every PID
loop's returned output lies within its configured bounds for any state (hence
along every finite input sequence from any starting state): `course_hold`
within ±15·3.14/180, `roll_hold` within ±max_a, `pitch_hold` (after its final
negation) within ±max_e, `airspeed_with_throttle_hold` within `[0, max_t]`,
and `altitude_hold_control` within ±10·3.14/180. -/
theorem pid_output_bounds (P : Params) (Ts : ℚ) (s : CtrlState)
    (ha : 0 ≤ P.max_a) (he : 0 ≤ P.max_e) (ht : 0 ≤ P.max_t) :
    (∀ chi_c chi phi_ff r,
      |(course_hold chi_c chi phi_ff r P Ts s).1| ≤ 15 * (314/100) / 180)
    ∧ (∀ phi_c phi p, |(roll_hold phi_c phi p P Ts s).1| ≤ P.max_a)
    ∧ (∀ theta_c theta q, |(pitch_hold theta_c theta q P Ts s).1| ≤ P.max_e)
    ∧ (∀ Va_c va, 0 ≤ (airspeed_with_throttle_hold Va_c va P Ts s).1
        ∧ (airspeed_with_throttle_hold Va_c va P Ts s).1 ≤ P.max_t)
    ∧ (∀ h_c h, |(altitude_hold_control h_c h P Ts s).1| ≤ 10 * (314/100) / 180) := by
  refine ⟨?_, ?_, ?_, ?_, ?_⟩
  · intro chi_c chi phi_ff r
    have h2 := sat_mem ((P.c_kp * (chi_c - chi))
      + P.c_ki * (s.c_integrator_ + (Ts / 2) * ((chi_c - chi) + s.c_error_))
      + P.c_kd * r + phi_ff) (15 * (314/100) / 180) (-(15 * (314/100) / 180))
      (by norm_num)
    rw [abs_le]
    exact ⟨h2.1, h2.2⟩
  · intro phi_c phi p
    have h2 := sat_mem ((P.r_kp * (phi_c - phi))
      + P.r_ki * (s.r_integrator + (Ts / 2) * ((phi_c - phi) + s.r_error_))
      - P.r_kd * p) P.max_a (-P.max_a) (by linarith)
    rw [abs_le]
    exact ⟨h2.1, h2.2⟩
  · intro theta_c theta q
    have h2 := sat_mem (P.trim_e / P.pwm_rad_e + (P.p_kp * (theta_c - theta))
      + P.p_ki * (s.p_integrator_ + (Ts / 2) * ((theta_c - theta) + s.p_error_))
      - P.p_kd * q) P.max_e (-P.max_e) (by linarith)
    rw [show (pitch_hold theta_c theta q P Ts s).1
      = -(sat (P.trim_e / P.pwm_rad_e + (P.p_kp * (theta_c - theta))
        + P.p_ki * (s.p_integrator_ + (Ts / 2) * ((theta_c - theta) + s.p_error_))
        - P.p_kd * q) P.max_e (-P.max_e)) from rfl, abs_neg, abs_le]
    exact ⟨h2.1, h2.2⟩
  · intro Va_c va
    exact sat_mem _ P.max_t 0 ht
  · intro h_c h
    have h2 := sat_mem (P.a_kp * (h_c - h)
      + P.a_ki * (if -P.alt_hz + 1/100 < h_c - h ∧ h_c - h < P.alt_hz - 1/100
          then s.a_integrator_ + (Ts / 2) * ((h_c - h) + s.a_error_) else 0)
      + P.a_kd * ((2 * P.tau - Ts) / (2 * P.tau + Ts) * s.a_differentiator_
          + (2 / (2 * P.tau + Ts)) * ((h_c - h) - s.a_error_)))
      (10 * (314/100) / 180) (-(10 * (314/100) / 180)) (by norm_num)
    rw [abs_le]
    exact ⟨h2.1, h2.2⟩

/-- Witness for C3 with unit limits, zero state and zero inputs. -/
theorem pid_output_bounds_witness :
    |(course_hold 0 0 0 0 { P0 with max_a := 1, max_e := 1, max_t := 1 } 1 S0).1|
      ≤ 15 * (314/100) / 180
    ∧ (0 ≤ (airspeed_with_throttle_hold 0 0
          { P0 with max_a := 1, max_e := 1, max_t := 1 } 1 S0).1
        ∧ (airspeed_with_throttle_hold 0 0
          { P0 with max_a := 1, max_e := 1, max_t := 1 } 1 S0).1
          ≤ ({ P0 with max_a := 1, max_e := 1, max_t := 1 } : Params).max_t) :=
  ⟨(pid_output_bounds { P0 with max_a := 1, max_e := 1, max_t := 1 } 1 S0
      (by norm_num [P0]) (by norm_num [P0]) (by norm_num [P0])).1 0 0 0 0,
   (pid_output_bounds { P0 with max_a := 1, max_e := 1, max_t := 1 } 1 S0
      (by norm_num [P0]) (by norm_num [P0]) (by norm_num [P0])).2.2.2.1 0 0⟩

/-- Claim C7: the altitude-hold exit hook zeroes exactly the course-loop
integrator and leaves every other persistent field unchanged (including the
course-loop previous error); the climb exit hook zeroes exactly the airspeed-
and altitude-loop error, integrator and differentiator fields and leaves all
course-, roll- and pitch-loop state unchanged. -/
theorem exit_hooks_frame (s : CtrlState) :
    ((altitude_hold_exit s).c_integrator_ = 0
      ∧ (altitude_hold_exit s).c_error_ = s.c_error_
      ∧ (altitude_hold_exit s).r_error_ = s.r_error_
      ∧ (altitude_hold_exit s).r_integrator = s.r_integrator
      ∧ (altitude_hold_exit s).p_error_ = s.p_error_
      ∧ (altitude_hold_exit s).p_integrator_ = s.p_integrator_
      ∧ (altitude_hold_exit s).at_error_ = s.at_error_
      ∧ (altitude_hold_exit s).at_integrator_ = s.at_integrator_
      ∧ (altitude_hold_exit s).at_differentiator_ = s.at_differentiator_
      ∧ (altitude_hold_exit s).a_error_ = s.a_error_
      ∧ (altitude_hold_exit s).a_integrator_ = s.a_integrator_
      ∧ (altitude_hold_exit s).a_differentiator_ = s.a_differentiator_)
    ∧ ((climb_exit s).at_error_ = 0
      ∧ (climb_exit s).at_integrator_ = 0
      ∧ (climb_exit s).at_differentiator_ = 0
      ∧ (climb_exit s).a_error_ = 0
      ∧ (climb_exit s).a_integrator_ = 0
      ∧ (climb_exit s).a_differentiator_ = 0
      ∧ (climb_exit s).c_error_ = s.c_error_
      ∧ (climb_exit s).c_integrator_ = s.c_integrator_
      ∧ (climb_exit s).r_error_ = s.r_error_
      ∧ (climb_exit s).r_integrator = s.r_integrator
      ∧ (climb_exit s).p_error_ = s.p_error_
      ∧ (climb_exit s).p_integrator_ = s.p_integrator_) :=
  ⟨⟨rfl, rfl, rfl, rfl, rfl, rfl, rfl, rfl, rfl, rfl, rfl, rfl⟩,
   ⟨rfl, rfl, rfl, rfl, rfl, rfl, rfl, rfl, rfl, rfl, rfl, rfl⟩⟩

/-- Claim C8: every call to `altitude_hold_control` stores its computed
altitude error `h_c - h` into the airspeed loop's previous-error field
`at_error_`, and leaves the altitude loop's own previous-error field
`a_error_` unchanged. -/
theorem altitude_error_aliasing (h_c h Ts : ℚ) (P : Params) (s : CtrlState) :
    (altitude_hold_control h_c h P Ts s).2.at_error_ = h_c - h
    ∧ (altitude_hold_control h_c h P Ts s).2.a_error_ = s.a_error_ :=
  ⟨rfl, rfl⟩

/-- Counterexample to claim C4: the constructor body does not zero the
airspeed- and altitude-loop fields; from an indeterminate pre-state (all
fields 1) the airspeed integrator and the altitude integrator are still 1
after construction, not 0. -/
theorem ctor_zero_init_cex :
    (controller_example_ctor sIndet).at_integrator_ ≠ 0
    ∧ (controller_example_ctor sIndet).a_integrator_ ≠ 0
    ∧ (controller_example_ctor sIndet).at_differentiator_ ≠ 0 := by
  refine ⟨?_, ?_, ?_⟩ <;> norm_num [controller_example_ctor, sIndet]

/-- Claim C4 as amended: the constructor initializes the course, roll and
pitch loops' previous errors and integrators to zero; the airspeed-throttle
and altitude loops' errors, integrators and differentiators are not assigned
by the constructor and keep their prior (indeterminate) values. -/
theorem ctor_partial_zero_init (s : CtrlState) :
    (controller_example_ctor s).c_error_ = 0
    ∧ (controller_example_ctor s).c_integrator_ = 0
    ∧ (controller_example_ctor s).r_error_ = 0
    ∧ (controller_example_ctor s).r_integrator = 0
    ∧ (controller_example_ctor s).p_error_ = 0
    ∧ (controller_example_ctor s).p_integrator_ = 0
    ∧ (controller_example_ctor s).at_error_ = s.at_error_
    ∧ (controller_example_ctor s).at_integrator_ = s.at_integrator_
    ∧ (controller_example_ctor s).at_differentiator_ = s.at_differentiator_
    ∧ (controller_example_ctor s).a_error_ = s.a_error_
    ∧ (controller_example_ctor s).a_integrator_ = s.a_integrator_
    ∧ (controller_example_ctor s).a_differentiator_ = s.a_differentiator_ :=
  ⟨rfl, rfl, rfl, rfl, rfl, rfl, rfl, rfl, rfl, rfl, rfl, rfl⟩

/-- Counterexample to claim C1: the two integrator behaviours are swapped
relative to the claim.  With `alt_hz = 1`, `a_ki = 0`, previous integrator 1:
at error `5` (at/beyond the band, where the claim says "frozen") the tick
resets the integrator to 0; at error `1/2` (strictly inside the band, where
the claim says "reset to exactly 0") the tick advances it trapezoidally to
`5/4`. -/
theorem altitude_integrator_freeze_cex :
    (|(5 : ℚ) - 0| ≥ ({ P0 with alt_hz := 1 } : Params).alt_hz - 1/100
      ∧ (altitude_hold_control 5 0 { P0 with alt_hz := 1 } 1
          { S0 with a_integrator_ := 1 }).2.a_integrator_
        ≠ ({ S0 with a_integrator_ := 1 } : CtrlState).a_integrator_)
    ∧ (|(1/2 : ℚ) - 0| < ({ P0 with alt_hz := 1 } : Params).alt_hz - 1/100
      ∧ (altitude_hold_control (1/2) 0 { P0 with alt_hz := 1 } 1
          { S0 with a_integrator_ := 1 }).2.a_integrator_ ≠ 0) := by
  have e1 : |(5 : ℚ) - 0| = 5 := by
    rw [show ((5 : ℚ) - 0) = 5 by norm_num]
    exact abs_of_nonneg (by norm_num)
  have e2 : |(1/2 : ℚ) - 0| = 1/2 := by
    rw [show ((1/2 : ℚ) - 0) = 1/2 by norm_num]
    exact abs_of_nonneg (by norm_num)
  refine ⟨⟨by rw [e1]; norm_num [P0], ?_⟩, ⟨by rw [e2]; norm_num [P0], ?_⟩⟩ <;>
    norm_num [altitude_hold_control, sat, P0, S0]

/-- Claim C1 as amended: on a tick of `altitude_hold_control` (stated with the
anti-windup correction inactive, `|a_ki| < 1e-5`, since that step further
adjusts the integrator afterwards): when the error `h_c - h` lies strictly
inside `(-alt_hz + 0.01, alt_hz - 0.01)` the integrator advances
trapezoidally, `a_integrator_ += (Ts/2)·(error + a_error_)`; when `|error|`
is within 0.01 of `alt_hz` or beyond it, the integrator is reset to exactly
0, not frozen. -/
theorem altitude_integrator_deadband (h_c h Ts : ℚ) (P : Params) (s : CtrlState)
    (hki : |P.a_ki| < 1 / 100000) :
    ((-P.alt_hz + 1/100 < h_c - h ∧ h_c - h < P.alt_hz - 1/100) →
      (altitude_hold_control h_c h P Ts s).2.a_integrator_
        = s.a_integrator_ + (Ts / 2) * ((h_c - h) + s.a_error_))
    ∧ (¬(-P.alt_hz + 1/100 < h_c - h ∧ h_c - h < P.alt_hz - 1/100) →
      (altitude_hold_control h_c h P Ts s).2.a_integrator_ = 0) := by
  have hki2 : ¬ (|P.a_ki| ≥ 1 / 100000) := not_le.mpr hki
  constructor
  · intro hin
    simp only [altitude_hold_control, if_pos hin, if_neg hki2]
  · intro hout
    simp only [altitude_hold_control, if_neg hout, if_neg hki2]

/-- Witness for C1 (amended) at `alt_hz = 1`, error `1/2`, `Ts = 1`, previous
integrator 1 and previous altitude error 0: the integrator advances to 5/4. -/
theorem altitude_integrator_deadband_witness :
    (altitude_hold_control (1/2) 0 { P0 with alt_hz := 1 } 1
        { S0 with a_integrator_ := 1 }).2.a_integrator_ = 5/4 := by
  have h1 := (altitude_integrator_deadband (1/2) 0 1 { P0 with alt_hz := 1 }
    { S0 with a_integrator_ := 1 } (by norm_num [P0])).1 (by norm_num [P0])
  rw [h1]
  norm_num [S0]

/-- Claim C5: altitude command shaping.  With hold-zone half-width
`H = alt_hz` (assumed non-negative), the climb handler feeds the altitude
loop the raw command `h_c` when `|h_c - h| ≤ H/2` and the adjusted command
`h + sign(h_c - h)·H/2` otherwise; the altitude-hold handler applies the same
rule with threshold `H` in place of `H/2`.  (The state fed to the altitude
loop is the one left by the handler's preceding airspeed-loop call.) -/
theorem altitude_command_shaping (P : Params) (inp : Input) (s : CtrlState)
    (hH : 0 ≤ P.alt_hz) :
    ((|inp.h_c - inp.h| ≤ P.alt_hz / 2 →
        (climb P inp s).1.theta_c
          = (altitude_hold_control inp.h_c inp.h P inp.Ts
              (airspeed_with_throttle_hold inp.Va_c inp.va P inp.Ts s).2).1)
      ∧ (P.alt_hz / 2 < |inp.h_c - inp.h| →
        (climb P inp s).1.theta_c
          = (altitude_hold_control (inp.h + sgn (inp.h_c - inp.h) * (P.alt_hz / 2))
              inp.h P inp.Ts
              (airspeed_with_throttle_hold inp.Va_c inp.va P inp.Ts s).2).1))
    ∧ ((|inp.h_c - inp.h| ≤ P.alt_hz →
        (altitude_hold P inp s).1.theta_c
          = (altitude_hold_control inp.h_c inp.h P inp.Ts
              (airspeed_with_throttle_hold inp.Va_c inp.va P inp.Ts s).2).1)
      ∧ (P.alt_hz < |inp.h_c - inp.h| →
        (altitude_hold P inp s).1.theta_c
          = (altitude_hold_control (inp.h + sgn (inp.h_c - inp.h) * P.alt_hz)
              inp.h P inp.Ts
              (airspeed_with_throttle_hold inp.Va_c inp.va P inp.Ts s).2).1)) := by
  refine ⟨⟨?_, ?_⟩, ⟨?_, ?_⟩⟩
  · intro hle
    simp only [climb, if_neg (not_lt.mpr hle)]
  · intro hgt
    have ht : inp.h_c - inp.h ≠ 0 := by
      intro h0
      rw [h0, abs_zero] at hgt
      linarith
    simp only [climb, if_pos hgt,
      copysignQ_eq_sgn_mul (P.alt_hz / 2) (inp.h_c - inp.h) (by linarith) ht]
  · intro hle
    simp only [altitude_hold, if_neg (not_lt.mpr hle)]
  · intro hgt
    have ht : inp.h_c - inp.h ≠ 0 := by
      intro h0
      rw [h0, abs_zero] at hgt
      linarith
    simp only [altitude_hold, if_pos hgt,
      copysignQ_eq_sgn_mul P.alt_hz (inp.h_c - inp.h) hH ht]

/-- Witness for C5: with `alt_hz = 2`, `h_c = 10`, `h = 0` (so the error 10
exceeds the climb threshold 1), the climb handler's commanded pitch equals the
altitude loop applied to the adjusted command `0 + sign(10)·1`. -/
theorem altitude_command_shaping_witness :
    (climb { P0 with alt_hz := 2 } { I0 with h_c := 10, Ts := 1 } S0).1.theta_c
      = (altitude_hold_control
          (({ I0 with h_c := 10, Ts := 1 } : Input).h
            + sgn (({ I0 with h_c := 10, Ts := 1 } : Input).h_c
                - ({ I0 with h_c := 10, Ts := 1 } : Input).h)
              * (({ P0 with alt_hz := 2 } : Params).alt_hz / 2))
          ({ I0 with h_c := 10, Ts := 1 } : Input).h
          ({ P0 with alt_hz := 2 } : Params)
          ({ I0 with h_c := 10, Ts := 1 } : Input).Ts
          (airspeed_with_throttle_hold
            ({ I0 with h_c := 10, Ts := 1 } : Input).Va_c
            ({ I0 with h_c := 10, Ts := 1 } : Input).va
            ({ P0 with alt_hz := 2 } : Params)
            ({ I0 with h_c := 10, Ts := 1 } : Input).Ts S0).2).1 :=
  (altitude_command_shaping { P0 with alt_hz := 2 } { I0 with h_c := 10, Ts := 1 }
    S0 (by norm_num [P0])).1.2 (by norm_num [P0, I0])

/-- Counterexample to claim C6's final clause ("the general throttle maximum
max_t never determines the take-off throttle"): with airspeed gain 1, a large
airspeed error, `max_takeoff_throttle = 4/5` and `max_t = 1/2`, the take-off
throttle is `1/2 = max_t`; raising only `max_t` to `3/5` changes the take-off
throttle to `3/5`, because the airspeed loop's internal saturation at `max_t`
binds before the phase clamp. -/
theorem take_off_max_t_cex :
    (take_off { P0 with a_t_kp := 1, tau := 1, max_t := 1/2, max_takeoff_throttle := 4/5 }
        { I0 with Va_c := 10, Ts := 1 } S0).1.delta_t
      = ({ P0 with a_t_kp := 1, tau := 1, max_t := 1/2, max_takeoff_throttle := 4/5 } : Params).max_t
    ∧ (take_off { P0 with a_t_kp := 1, tau := 1, max_t := 3/5, max_takeoff_throttle := 4/5 }
        { I0 with Va_c := 10, Ts := 1 } S0).1.delta_t
      = ({ P0 with a_t_kp := 1, tau := 1, max_t := 3/5, max_takeoff_throttle := 4/5 } : Params).max_t
    ∧ (take_off { P0 with a_t_kp := 1, tau := 1, max_t := 1/2, max_takeoff_throttle := 4/5 }
        { I0 with Va_c := 10, Ts := 1 } S0).1.delta_t
      ≠ (take_off { P0 with a_t_kp := 1, tau := 1, max_t := 3/5, max_takeoff_throttle := 4/5 }
        { I0 with Va_c := 10, Ts := 1 } S0).1.delta_t := by
  refine ⟨?_, ?_, ?_⟩ <;>
    norm_num [take_off, roll_hold, airspeed_with_throttle_hold, sat, P0, I0, S0]

/-- Claim C6 as amended: for every params, input and state the take-off
handler sets rudder `delta_r = 0` and commanded roll `phi_c = 0`, fixes the
commanded pitch at the constant shallow angle `3·3.14/180` independent of
altitude error, and sets the throttle to the airspeed-via-throttle-hold
output re-clamped into `[0, max_takeoff_throttle]`; the clamp applied by the
take-off handler itself uses `max_takeoff_throttle`, never `max_t`, though
the airspeed loop's internal saturation at `max_t` can still limit the
result. -/
theorem take_off_outputs (P : Params) (inp : Input) (s : CtrlState) :
    (take_off P inp s).1.delta_r = 0
    ∧ (take_off P inp s).1.phi_c = 0
    ∧ (take_off P inp s).1.theta_c = 3 * (314/100) / 180
    ∧ (take_off P inp s).1.delta_t
      = sat (airspeed_with_throttle_hold inp.Va_c inp.va P inp.Ts s).1
          P.max_takeoff_throttle 0 :=
  ⟨rfl, rfl, rfl, rfl⟩

/-- Counterexample to claim C2: course loop with `c_ki = 1`, `Ts = 2`, error
1 from zero state.  The unsaturated effort is 1, beyond the +15·3.14/180
bound, and `|c_ki| ≥ 1e-5`, yet recomputing the effort from the post-tick
state gives `-143/300`, not the clamped output `157/600`: the correction
`(Ts/Ki)·(sat - unsat)` overshoots by the factor `Ts`. -/
theorem antiwindup_consistency_cex :
    |({ P0 with c_ki := 1 } : Params).c_ki| ≥ 1/100000
    ∧ (15 * (314/100) / 180 : ℚ)
        < ({ P0 with c_ki := 1 } : Params).c_kp * (1 - 0)
          + ({ P0 with c_ki := 1 } : Params).c_ki
            * (S0.c_integrator_ + (2 / 2) * ((1 - 0) + S0.c_error_))
          + ({ P0 with c_ki := 1 } : Params).c_kd * 0 + 0
    ∧ ({ P0 with c_ki := 1 } : Params).c_kp * (1 - 0)
        + ({ P0 with c_ki := 1 } : Params).c_ki
          * (course_hold 1 0 0 0 { P0 with c_ki := 1 } 2 S0).2.c_integrator_
        + ({ P0 with c_ki := 1 } : Params).c_kd * 0 + 0
      ≠ (course_hold 1 0 0 0 { P0 with c_ki := 1 } 2 S0).1 := by
  refine ⟨by norm_num [P0], by norm_num [P0, S0], ?_⟩
  norm_num [course_hold, sat, P0, S0]

/-- Claim C2 as amended: for every PID loop, every tick with
`|Ki| ≥ 1e-5` adjusts the stored integrator by `(Ts/Ki)·(sat - unsat)`, so
recomputing the effort (`Kp·error + Ki·integrator` plus the loop's derivative
and bias terms, without clamping) from the post-tick state yields
`(1 - Ts)·unsaturated + Ts·clamped` — the clamped output exactly when
`Ts = 1`, not in general; when `|Ki| < 1e-5` the anti-windup step leaves the
integrator untouched (the tick stores the plain trapezoidal update, or for
the altitude loop the deadband-gated value). -/
theorem antiwindup_backcalculation (P : Params) (Ts : ℚ) (s : CtrlState) :
    (∀ chi_c chi phi_ff r : ℚ, |P.c_ki| ≥ 1/100000 →
      P.c_kp * (chi_c - chi)
        + P.c_ki * (course_hold chi_c chi phi_ff r P Ts s).2.c_integrator_
        + P.c_kd * r + phi_ff
      = (1 - Ts) * (P.c_kp * (chi_c - chi)
          + P.c_ki * (s.c_integrator_ + (Ts / 2) * ((chi_c - chi) + s.c_error_))
          + P.c_kd * r + phi_ff)
        + Ts * (course_hold chi_c chi phi_ff r P Ts s).1)
    ∧ (∀ chi_c chi phi_ff r : ℚ, |P.c_ki| < 1/100000 →
      (course_hold chi_c chi phi_ff r P Ts s).2.c_integrator_
        = s.c_integrator_ + (Ts / 2) * ((chi_c - chi) + s.c_error_))
    ∧ (∀ phi_c phi p : ℚ, |P.r_ki| ≥ 1/100000 →
      P.r_kp * (phi_c - phi)
        + P.r_ki * (roll_hold phi_c phi p P Ts s).2.r_integrator
        - P.r_kd * p
      = (1 - Ts) * (P.r_kp * (phi_c - phi)
          + P.r_ki * (s.r_integrator + (Ts / 2) * ((phi_c - phi) + s.r_error_))
          - P.r_kd * p)
        + Ts * (roll_hold phi_c phi p P Ts s).1)
    ∧ (∀ phi_c phi p : ℚ, |P.r_ki| < 1/100000 →
      (roll_hold phi_c phi p P Ts s).2.r_integrator
        = s.r_integrator + (Ts / 2) * ((phi_c - phi) + s.r_error_))
    ∧ (∀ theta_c theta q : ℚ, |P.p_ki| ≥ 1/100000 →
      P.trim_e / P.pwm_rad_e + P.p_kp * (theta_c - theta)
        + P.p_ki * (pitch_hold theta_c theta q P Ts s).2.p_integrator_
        - P.p_kd * q
      = (1 - Ts) * (P.trim_e / P.pwm_rad_e + P.p_kp * (theta_c - theta)
          + P.p_ki * (s.p_integrator_ + (Ts / 2) * ((theta_c - theta) + s.p_error_))
          - P.p_kd * q)
        + Ts * (-(pitch_hold theta_c theta q P Ts s).1))
    ∧ (∀ theta_c theta q : ℚ, |P.p_ki| < 1/100000 →
      (pitch_hold theta_c theta q P Ts s).2.p_integrator_
        = s.p_integrator_ + (Ts / 2) * ((theta_c - theta) + s.p_error_))
    ∧ (∀ Va_c va : ℚ, |P.a_t_ki| ≥ 1/100000 →
      P.trim_t + P.a_t_kp * (Va_c - va)
        + P.a_t_ki * (airspeed_with_throttle_hold Va_c va P Ts s).2.at_integrator_
        + P.a_t_kd * (airspeed_with_throttle_hold Va_c va P Ts s).2.at_differentiator_
      = (1 - Ts) * (P.trim_t + P.a_t_kp * (Va_c - va)
          + P.a_t_ki * (s.at_integrator_ + (Ts / 2) * ((Va_c - va) + s.at_error_))
          + P.a_t_kd * (airspeed_with_throttle_hold Va_c va P Ts s).2.at_differentiator_)
        + Ts * (airspeed_with_throttle_hold Va_c va P Ts s).1)
    ∧ (∀ Va_c va : ℚ, |P.a_t_ki| < 1/100000 →
      (airspeed_with_throttle_hold Va_c va P Ts s).2.at_integrator_
        = s.at_integrator_ + (Ts / 2) * ((Va_c - va) + s.at_error_))
    ∧ (∀ h_c h : ℚ, |P.a_ki| ≥ 1/100000 →
      P.a_kp * (h_c - h)
        + P.a_ki * (altitude_hold_control h_c h P Ts s).2.a_integrator_
        + P.a_kd * (altitude_hold_control h_c h P Ts s).2.a_differentiator_
      = (1 - Ts) * (P.a_kp * (h_c - h)
          + P.a_ki * (if -P.alt_hz + 1/100 < h_c - h ∧ h_c - h < P.alt_hz - 1/100
              then s.a_integrator_ + (Ts / 2) * ((h_c - h) + s.a_error_) else 0)
          + P.a_kd * (altitude_hold_control h_c h P Ts s).2.a_differentiator_)
        + Ts * (altitude_hold_control h_c h P Ts s).1)
    ∧ (∀ h_c h : ℚ, |P.a_ki| < 1/100000 →
      (altitude_hold_control h_c h P Ts s).2.a_integrator_
        = (if -P.alt_hz + 1/100 < h_c - h ∧ h_c - h < P.alt_hz - 1/100
            then s.a_integrator_ + (Ts / 2) * ((h_c - h) + s.a_error_) else 0)) := by
  refine ⟨?_, ?_, ?_, ?_, ?_, ?_, ?_, ?_, ?_, ?_⟩
  · intro chi_c chi phi_ff r hki
    have hne := ki_ne_zero hki
    simp only [course_hold, if_pos hki]
    field_simp
    ring
  · intro chi_c chi phi_ff r hki
    simp only [course_hold, if_neg (not_le.mpr hki)]
  · intro phi_c phi p hki
    have hne := ki_ne_zero hki
    simp only [roll_hold, if_pos hki]
    field_simp
    ring
  · intro phi_c phi p hki
    simp only [roll_hold, if_neg (not_le.mpr hki)]
  · intro theta_c theta q hki
    have hne := ki_ne_zero hki
    simp only [pitch_hold, if_pos hki]
    field_simp
    ring
  · intro theta_c theta q hki
    simp only [pitch_hold, if_neg (not_le.mpr hki)]
  · intro Va_c va hki
    have hne := ki_ne_zero hki
    simp only [airspeed_with_throttle_hold, if_pos hki]
    field_simp
    ring
  · intro Va_c va hki
    simp only [airspeed_with_throttle_hold, if_neg (not_le.mpr hki)]
  · intro h_c h hki
    have hne := ki_ne_zero hki
    simp only [altitude_hold_control, if_pos hki]
    field_simp
    ring
  · intro h_c h hki
    simp only [altitude_hold_control, if_neg (not_le.mpr hki)]

/-- Witness for C2 (amended): course loop with `c_ki = 1`, error 1, `Ts = 1`
from zero state; recomputing the effort from the post-tick state reproduces
`(1-1)·unsat + 1·clamped`, i.e. the clamped output. -/
theorem antiwindup_backcalculation_witness :
    ({ P0 with c_ki := 1 } : Params).c_kp * (1 - 0)
      + ({ P0 with c_ki := 1 } : Params).c_ki
        * (course_hold 1 0 0 0 { P0 with c_ki := 1 } 1 S0).2.c_integrator_
      + ({ P0 with c_ki := 1 } : Params).c_kd * 0 + 0
    = (1 - 1) * (({ P0 with c_ki := 1 } : Params).c_kp * (1 - 0)
        + ({ P0 with c_ki := 1 } : Params).c_ki
          * (S0.c_integrator_ + ((1:ℚ) / 2) * ((1 - 0) + S0.c_error_))
        + ({ P0 with c_ki := 1 } : Params).c_kd * 0 + 0)
      + 1 * (course_hold 1 0 0 0 { P0 with c_ki := 1 } 1 S0).1 :=
  (antiwindup_backcalculation { P0 with c_ki := 1 } 1 S0).1 1 0 0 0
    (by norm_num [P0])

theorem mapFind_mapSet_self (m : List (String × PVal)) (k : String) (v : PVal) :
    mapFind (mapSet m k v) k = some v := by
  induction m with
  | nil => simp [mapSet, mapFind]
  | cons hd tl ih =>
    by_cases hk : hd.1 = k
    · simp [mapSet, mapFind, hk]
    · simpa [mapSet, mapFind, hk] using ih

theorem mapFind_mapSet_ne (m : List (String × PVal)) (k : String) (v : PVal)
    (k2 : String) (hk : k ≠ k2) :
    mapFind (mapSet m k v) k2 = mapFind m k2 := by
  induction m with
  | nil => simp [mapSet, mapFind, hk]
  | cons hd tl ih =>
    by_cases h1 : hd.1 = k
    · simp [mapSet, mapFind, h1, hk]
    · by_cases h2 : hd.1 = k2
      · simp [mapSet, mapFind, h1, h2, Ne.symm hk]
      · simpa [mapSet, mapFind, h1, h2] using ih

theorem mapFind_mapSet_isSome (m : List (String × PVal)) (k : String) (v : PVal)
    (k2 : String) (h : (mapFind m k2).isSome) :
    (mapFind (mapSet m k v) k2).isSome := by
  by_cases hk : k = k2
  · rw [hk, mapFind_mapSet_self]
    rfl
  · rwa [mapFind_mapSet_ne m k v k2 hk]

/-- Claim C10: `set_parameters_callback` applied to a vector of parameters.
If every name in the vector is present in the stored map, each entry is
updated (in order, later duplicates winning) and `true` is returned; if some
name was never declared, `false` is returned at the first such name, with the
parameters before it already applied — the update is not atomic. -/
theorem set_parameters_callback_spec (m : List (String × PVal))
    (ps pre rest : List (String × PVal)) (bad : String × PVal)
    (hall : ∀ p ∈ ps, (mapFind m p.1).isSome)
    (hpre : ∀ p ∈ pre, (mapFind m p.1).isSome)
    (hbad : mapFind m bad.1 = none) :
    set_parameters_callback m ps
      = (true, ps.foldl (fun acc p => mapSet acc p.1 p.2) m)
    ∧ set_parameters_callback m (pre ++ bad :: rest)
      = (false, pre.foldl (fun acc p => mapSet acc p.1 p.2) m) := by
  constructor
  · clear hpre hbad
    induction ps generalizing m with
    | nil => rfl
    | cons hd tl ih =>
      have hhd : (mapFind m hd.1).isSome := hall hd (by simp)
      have hnone : ¬ (mapFind m hd.1).isNone := by
        rw [Option.isNone_iff_eq_none]
        exact Option.isSome_iff_ne_none.mp hhd
      rw [show set_parameters_callback m (hd :: tl)
          = set_parameters_callback (mapSet m hd.1 hd.2) tl by
        simp [set_parameters_callback, hnone]]
      rw [List.foldl_cons]
      exact ih (mapSet m hd.1 hd.2)
        (fun p hp => mapFind_mapSet_isSome m hd.1 hd.2 p.1 (hall p (by simp [hp])))
  · clear hall
    induction pre generalizing m with
    | nil =>
      have hnone : (mapFind m bad.1).isNone := by
        rw [Option.isNone_iff_eq_none]
        exact hbad
      simp [set_parameters_callback, hnone]
    | cons hd tl ih =>
      have hhd : (mapFind m hd.1).isSome := hpre hd (by simp)
      have hnone : ¬ (mapFind m hd.1).isNone := by
        rw [Option.isNone_iff_eq_none]
        exact Option.isSome_iff_ne_none.mp hhd
      have hne : hd.1 ≠ bad.1 := by
        intro he
        rw [he, hbad] at hhd
        simp at hhd
      rw [List.cons_append,
        show set_parameters_callback m (hd :: (tl ++ bad :: rest))
          = set_parameters_callback (mapSet m hd.1 hd.2) (tl ++ bad :: rest) by
        simp [set_parameters_callback, hnone]]
      rw [List.foldl_cons]
      exact ih (mapSet m hd.1 hd.2)
        (fun p hp => mapFind_mapSet_isSome m hd.1 hd.2 p.1 (hpre p (by simp [hp])))
        (by rw [mapFind_mapSet_ne m hd.1 hd.2 bad.1 hne, hbad])

/-- Witness for C10: over the stored map `{a ↦ 1.0, b ↦ 2.0}`, the vector
`[(a, 7.0)]` of declared names updates `a` and returns `true`, and the vector
`[(a, 7.0), (zzz, true)]` hits the undeclared name `zzz` and returns `false`
with `a` nevertheless already updated — the map changed despite the `false`
return. -/
theorem set_parameters_callback_spec_witness :
    (set_parameters_callback [("a", PVal.pdouble 1), ("b", PVal.pdouble 2)]
        [("a", PVal.pdouble 7)]
      = (true, List.foldl (fun acc p => mapSet acc p.1 p.2)
          [("a", PVal.pdouble 1), ("b", PVal.pdouble 2)] [("a", PVal.pdouble 7)])
    ∧ set_parameters_callback [("a", PVal.pdouble 1), ("b", PVal.pdouble 2)]
        ([("a", PVal.pdouble 7)] ++ ("zzz", PVal.pbool true) :: [])
      = (false, List.foldl (fun acc p => mapSet acc p.1 p.2)
          [("a", PVal.pdouble 1), ("b", PVal.pdouble 2)] [("a", PVal.pdouble 7)]))
    ∧ List.foldl (fun acc p => mapSet acc p.1 p.2)
        [("a", PVal.pdouble 1), ("b", PVal.pdouble 2)] [("a", PVal.pdouble 7)]
      ≠ [("a", PVal.pdouble 1), ("b", PVal.pdouble 2)] :=
  ⟨set_parameters_callback_spec [("a", PVal.pdouble 1), ("b", PVal.pdouble 2)]
      [("a", PVal.pdouble 7)] [("a", PVal.pdouble 7)] []
      ("zzz", PVal.pbool true)
      (by decide) (by decide) (by decide),
   by decide⟩

end Rosplane2
